import Mathlib

/-!
Verification of the conversation-session controller of the Ebook reading
application (source: `src/components/QuizModal.tsx`, `src/data/storyData.ts`).

The TypeScript code is shallowly embedded:

* Untyped, duck-typed JavaScript values (the transport event payloads) are
  the inductive type `D`.  Property access on `null`/`undefined` throws in
  JavaScript; where the source performs an unguarded access that can throw,
  the embedding returns `Except.error ()`, and a surrounding `try`/`catch`
  becomes a `match` that swallows the error.  `JSON.parse` is a platform
  built-in, so it is passed as an oracle parameter
  `parse : String → Option D` (`none` = the parse throws).
* React component state (`useState` values and the two `useRef` cells
  `callObjectRef`, `conversationIdRef`) is the record `SessionSt`; the
  `set…` calls become record updates.
* Calls to external collaborators (Tavus provider, Daily transport, timers)
  become elements of an emitted `Effect` list, in source order.
* `String.prototype.toLowerCase` / `.includes` are modelled by `strToLower`
  (ASCII, via `Char.toLower`) and `strIncludes` (substring test).
-/

/-- A duck-typed JavaScript value.  `null` stands for both `null` and
`undefined` (the source only distinguishes them through truthiness and
strict equality with string literals, which agree on the two). -/
inductive D where
  | null : D
  | b : Bool → D
  | n : Int → D
  | s : String → D
  | a : List D → D
  | o : List (String × D) → D
deriving Repr

/-- Assoc-list field lookup; a missing key yields `undefined` (`D.null`). -/
def getField : List (String × D) → String → D
  | [], _ => .null
  | (k, v) :: rest, key => if k = key then v else getField rest key

/-- JavaScript property access `d[key]` on a non-null receiver: `undefined`
unless `d` is an object that has the key.  (Access on `null`/`undefined`
throws instead; see `D.getE`.) -/
def D.get (d : D) (key : String) : D :=
  match d with
  | .o fs => getField fs key
  | _ => .null

/-- JavaScript property access that throws a `TypeError` when the receiver
is `null`/`undefined`, as in unguarded accesses of the source. -/
def D.getE (d : D) (key : String) : Except Unit D :=
  match d with
  | .null => .error ()
  | _ => .ok (d.get key)

/-- JavaScript truthiness. -/
def D.truthy : D → Bool
  | .null => false
  | .b v => v
  | .n i => decide (i ≠ 0)
  | .s v => decide (v ≠ "")
  | .o _ => true
  | .a _ => true

/-- Strict equality `d === lit` of a value with a string literal. -/
def dEqStr (d : D) (lit : String) : Bool :=
  match d with
  | .s v => decide (v = lit)
  | _ => false

/-- `prefix` test on character lists (used by the substring test). -/
def listIsPrefix : List Char → List Char → Bool
  | [], _ => true
  | _ :: _, [] => false
  | a :: as, c :: cs => a == c && listIsPrefix as cs

/-- Substring occurrence test on character lists. -/
def listInfix (needle hay : List Char) : Bool :=
  listIsPrefix needle hay ||
    match hay with
    | [] => false
    | _ :: t => listInfix needle t

/-- JavaScript `hay.includes(needle)`. -/
def strIncludes (hay needle : String) : Bool :=
  listInfix needle.data hay.data

/-- JavaScript `s.toLowerCase()` (ASCII case mapping). -/
def strToLower (s : String) : String :=
  ⟨s.data.map Char.toLower⟩

mutual

/-- JavaScript `String(v)` coercion, used by template-literal
interpolation in the status messages (objects render as
`[object Object]`, arrays as their comma-joined elements). -/
def D.jsToString : D → String
  | .null => "null"
  | .b true => "true"
  | .b false => "false"
  | .n i => toString i
  | .s v => v
  | .a xs => jsToStringItems xs
  | .o _ => "[object Object]"

def jsToStringItems : List D → String
  | [] => ""
  | [x] => D.jsToString x
  | x :: xs => D.jsToString x ++ "," ++ jsToStringItems xs

end

mutual

/-- `JSON.stringify` (modulo string escaping), used only to render the
tool-call history entries. -/
def D.stringify : D → String
  | .null => "null"
  | .b true => "true"
  | .b false => "false"
  | .n i => toString i
  | .s v => "\"" ++ v ++ "\""
  | .a xs => "[" ++ stringifyItems xs ++ "]"
  | .o fs => "\x7b" ++ stringifyFields fs ++ "\x7d"

def stringifyItems : List D → String
  | [] => ""
  | [x] => D.stringify x
  | x :: xs => D.stringify x ++ "," ++ stringifyItems xs

def stringifyFields : List (String × D) → String
  | [] => ""
  | [(k, v)] => "\"" ++ k ++ "\":" ++ D.stringify v
  | (k, v) :: fs => "\"" ++ k ++ "\":" ++ D.stringify v ++ "," ++ stringifyFields fs

end

/-- The canonical tool call produced by the event normalizer
(`extractToolCallFromData` returns objects of the shape
`\x7b function_name, arguments \x7d`).  The fields are raw JavaScript
values, exactly as the source passes them around. -/
structure ToolCall where
  function_name : D
  arguments : D
deriving Repr

theorem sizeOf_getField_lt (fs : List (String × D)) (key : String)
    (h : (getField fs key).truthy = true) :
    sizeOf (getField fs key) < 1 + sizeOf fs := by
  induction fs with
  | nil => simp [getField, D.truthy] at h
  | cons p rest ih =>
    obtain ⟨k, v⟩ := p
    simp only [getField] at h ⊢
    by_cases hk : k = key
    · simp only [hk, if_pos rfl] at h ⊢
      simp
      omega
    · simp only [if_neg hk] at h ⊢
      have := ih h
      simp
      omega

theorem sizeOf_get_lt (d : D) (key : String) (h : (d.get key).truthy = true) :
    sizeOf (d.get key) < sizeOf d := by
  cases d <;> simp only [D.get, D.truthy] at h ⊢
  case o fs =>
    have := sizeOf_getField_lt fs key h
    simp only [D.o.sizeOf_spec]
    omega
  all_goals simp at h

/-- The body of normalizer strategy 3 (OpenAI-style `tool_calls` array),
applied to the value of the `tool_calls` field: take the first element,
require a truthy `function` descriptor, and parse string-valued
arguments with `JSON.parse`.  Also reached by strategy 5 through the
source's recursive call `extractToolCallFromData(\x7b tool_calls:
choice.message.tool_calls \x7d)` (see `extract_wrap_tool_calls`).
Returns `.ok none` when the source falls through to the next strategy. -/
def tryToolCallsArray (parse : String → Option D) (tcs : D) :
    Except Unit (Option ToolCall) :=
  match tcs with
  | .a (first :: _) =>
    match first with
    | .null => .error ()
    | _ =>
      if (first.get "function").truthy then
        match (first.get "function").get "arguments" with
        | .s argStr =>
          match parse argStr with
          | some v => .ok (some ⟨(first.get "function").get "name", v⟩)
          | none => .error ()
        | other => .ok (some ⟨(first.get "function").get "name", other⟩)
      else .ok none
  | _ => .ok none

/-- `extractToolCallFromData` (QuizModal.tsx:1210-1270): the event
normalizer.  Six extraction strategies are tried in source order:
direct fields; nested `properties`; `tool_calls` array; event-type-tagged
wrapper (which recurses into `properties` and commits to that result);
`choices` wrapper (which commits to the nested `tool_calls` extraction);
bare `function` descriptor.  `.error ()` models a thrown exception
(`JSON.parse` failure or property access on a null element). -/
def extractToolCallFromData (parse : String → Option D) (data : D) :
    Except Unit (Option ToolCall) :=
  if !data.truthy then .ok none
  else if (data.get "function_name").truthy && (data.get "arguments").truthy then
    .ok (some ⟨data.get "function_name", data.get "arguments"⟩)
  else if (data.get "properties").truthy &&
      ((data.get "properties").get "function_name").truthy then
    .ok (some ⟨(data.get "properties").get "function_name",
               (data.get "properties").get "arguments"⟩)
  else
    match tryToolCallsArray parse (data.get "tool_calls") with
    | .error e => .error e
    | .ok (some tc) => .ok (some tc)
    | .ok none =>
      if h4 : ((dEqStr (data.get "event_type") "conversation.toolcall" ||
                dEqStr (data.get "event_type") "conversation.llm.function_call" ||
                dEqStr (data.get "message_type") "conversation") &&
               (data.get "properties").truthy) = true then
        extractToolCallFromData parse (data.get "properties")
      else
        let strategy6val : Except Unit (Option ToolCall) :=
          if (data.get "function").truthy &&
              ((data.get "function").get "name").truthy then
            match (data.get "function").get "arguments" with
            | .s argStr =>
              match parse argStr with
              | some v => .ok (some ⟨(data.get "function").get "name", v⟩)
              | none => .error ()
            | other => .ok (some ⟨(data.get "function").get "name", other⟩)
          else .ok none
        match data.get "choices" with
        | .a (choice :: _) =>
          match choice with
          | .null => .error ()
          | _ =>
            if (choice.get "message").truthy &&
                ((choice.get "message").get "tool_calls").truthy then
              tryToolCallsArray parse ((choice.get "message").get "tool_calls")
            else strategy6val
        | _ => strategy6val
termination_by sizeOf data
decreasing_by
  simp only [Bool.and_eq_true] at h4
  exact sizeOf_get_lt data "properties" h4.2

/-- Sanity check for the strategy-5 translation: on the wrapper object the
source builds (`\x7b tool_calls: x \x7d`), the full normalizer coincides
with the strategy-3 body, so the embedding's direct call to
`tryToolCallsArray` in strategy 5 is faithful to the source's recursion. -/
theorem extract_wrap_tool_calls (parse : String → Option D) (x : D) :
    extractToolCallFromData parse (D.o [("tool_calls", x)]) =
      tryToolCallsArray parse x := by
  rw [extractToolCallFromData]
  simp only [D.get, getField, D.truthy, dEqStr]
  simp only [reduceIte, Bool.false_and, Bool.and_false]
  cases tryToolCallsArray parse x with
  | error e => rfl
  | ok v => cases v <;> rfl

/-- Normalizer strategy 1 (direct fields `function_name` + `arguments`),
as the first `if` block of `extractToolCallFromData`. -/
def strategy1 (data : D) : Option ToolCall :=
  if (data.get "function_name").truthy && (data.get "arguments").truthy then
    some ⟨data.get "function_name", data.get "arguments"⟩
  else none

/-- Normalizer strategy 2 (nested `properties` wrapper). -/
def strategy2 (data : D) : Option ToolCall :=
  if (data.get "properties").truthy &&
      ((data.get "properties").get "function_name").truthy then
    some ⟨(data.get "properties").get "function_name",
          (data.get "properties").get "arguments"⟩
  else none

/-- Normalizer strategy 3 (OpenAI-style `tool_calls` array, first element). -/
def strategy3 (parse : String → Option D) (data : D) :
    Except Unit (Option ToolCall) :=
  tryToolCallsArray parse (data.get "tool_calls")

/-- Normalizer strategy 4 (event-type-tagged wrapper): when the payload
carries a recognized tag and a truthy `properties`, the source returns the
full recursive extraction of `properties`. -/
def strategy4 (parse : String → Option D) (data : D) :
    Except Unit (Option ToolCall) :=
  if (dEqStr (data.get "event_type") "conversation.toolcall" ||
      dEqStr (data.get "event_type") "conversation.llm.function_call" ||
      dEqStr (data.get "message_type") "conversation") &&
      (data.get "properties").truthy then
    extractToolCallFromData parse (data.get "properties")
  else .ok none

/-- Normalizer strategy 5 (GPT-style `choices` wrapper with nested
`message.tool_calls`). -/
def strategy5 (parse : String → Option D) (data : D) :
    Except Unit (Option ToolCall) :=
  match data.get "choices" with
  | .a (choice :: _) =>
    match choice with
    | .null => .error ()
    | _ =>
      if (choice.get "message").truthy &&
          ((choice.get "message").get "tool_calls").truthy then
        tryToolCallsArray parse ((choice.get "message").get "tool_calls")
      else .ok none
  | _ => .ok none

/-- Normalizer strategy 6 (bare `function` descriptor with `name`). -/
def strategy6 (parse : String → Option D) (data : D) :
    Except Unit (Option ToolCall) :=
  if (data.get "function").truthy && ((data.get "function").get "name").truthy then
    match (data.get "function").get "arguments" with
    | .s argStr =>
      match parse argStr with
      | some v => .ok (some ⟨(data.get "function").get "name", v⟩)
      | none => .error ()
    | other => .ok (some ⟨(data.get "function").get "name", other⟩)
  else .ok none

/-- Sequencing of optional extractions: keep the first produced call,
propagate thrown errors. -/
def orTryCall (acc : Except Unit (Option ToolCall))
    (next : Unit → Except Unit (Option ToolCall)) :
    Except Unit (Option ToolCall) :=
  match acc with
  | .error e => .error e
  | .ok (some tc) => .ok (some tc)
  | .ok none => next ()

/-- Modelled from the spec: "Implementation is an ordered list of
independent extraction strategies, each a total function from payload to
optional tool call; the normalizer returns the result of the first
strategy that succeeds."  This is the claim-side semantics C3 ascribes to
`extractToolCallFromData`; the six strategies themselves are taken from
the source blocks. -/
def firstSuccessNormalizer (parse : String → Option D) (data : D) :
    Except Unit (Option ToolCall) :=
  if !data.truthy then .ok none
  else
    orTryCall (.ok (strategy1 data)) (fun _ =>
      orTryCall (.ok (strategy2 data)) (fun _ =>
        orTryCall (strategy3 parse data) (fun _ =>
          orTryCall (strategy4 parse data) (fun _ =>
            orTryCall (strategy5 parse data) (fun _ =>
              strategy6 parse data)))))

/-- `tryManualToolCall` (QuizModal.tsx:1187-1208): the keyword-based
manual-inference fallback over a user utterance. -/
def tryManualToolCall (userSpeech : String) : Option ToolCall :=
  let speech := strToLower userSpeech
  if strIncludes speech "story" || strIncludes speech "stories" then
    some ⟨.s "filter_books_by_subject", .o [("subject", .s "STORY")]⟩
  else if strIncludes speech "science" then
    some ⟨.s "filter_books_by_subject", .o [("subject", .s "SCIENCE")]⟩
  else if strIncludes speech "math" then
    some ⟨.s "filter_books_by_subject", .o [("subject", .s "MATHS")]⟩
  else if strIncludes speech "animal" || strIncludes speech "rabbit" then
    some ⟨.s "search_books", .o [("searchTerm", .s "animals")]⟩
  else if strIncludes speech "easy" || strIncludes speech "beginner" then
    some ⟨.s "filter_books_by_difficulty", .o [("difficulty", .s "beginner")]⟩
  else none

/-- The event-type guard used by the source's user-utterance fallback:
`event.data && event.data.event_type === 'conversation.utterance' &&
event.data.properties && event.data.properties.role === 'user'`. -/
def isUserUtteranceGuard (event : D) : Bool :=
  (event.get "data").truthy &&
    dEqStr ((event.get "data").get "event_type") "conversation.utterance" &&
    ((event.get "data").get "properties").truthy &&
    dEqStr (((event.get "data").get "properties").get "role") "user"

/-- A recognized user-utterance event in the sense of claim C5: the
utterance guard matches and the `speech` property holds text. -/
def isUserUtterance (event : D) : Bool :=
  isUserUtteranceGuard event &&
    (match ((event.get "data").get "properties").get "speech" with
     | .s _ => true
     | _ => false)

/-- The extraction pipeline of `handleTavusEvent` (QuizModal.tsx:1133-1181)
inside its `try` block: methods 1-5 feed `extractToolCallFromData` with
`event.data`, the event itself, `event.payload`, `event.message`, and
(for tool/function-tagged event types) `event.data` again; if no tool
call is found and the event is a user utterance, the manual fallback
runs on the speech text.  Returns the tool call that is passed to
`executeToolCall`, if any; `.error ()` models a thrown exception. -/
def handleTavusEventCore (parse : String → Option D) (event : D) :
    Except Unit (Option ToolCall) :=
  let m1 := if (event.get "data").truthy
            then extractToolCallFromData parse (event.get "data") else .ok none
  let m2 := orTryCall m1 (fun _ => extractToolCallFromData parse event)
  let m3 := orTryCall m2 (fun _ =>
    if (event.get "payload").truthy
    then extractToolCallFromData parse (event.get "payload") else .ok none)
  let m4 := orTryCall m3 (fun _ =>
    if (event.get "message").truthy
    then extractToolCallFromData parse (event.get "message") else .ok none)
  let m5 := orTryCall m4 (fun _ =>
    if (event.get "data").truthy && ((event.get "data").get "event_type").truthy then
      match (event.get "data").get "event_type" with
      | .s t =>
        if strIncludes t "tool" || strIncludes t "function" ||
            t = "conversation.llm.function_call" then
          extractToolCallFromData parse (event.get "data")
        else .ok none
      | _ => .error ()
    else .ok none)
  orTryCall m5 (fun _ =>
    if isUserUtteranceGuard event then
      match ((event.get "data").get "properties").get "speech" with
      | .s speech => .ok (tryManualToolCall speech)
      | _ => .error ()
    else .ok none)

/-- `handleTavusEvent` with its surrounding `try`/`catch`: a thrown
exception is logged and swallowed, so no tool call is dispatched. -/
def handleTavusEvent (parse : String → Option D) (event : D) : Option ToolCall :=
  match handleTavusEventCore parse event with
  | .ok r => r
  | .error _ => none

/-- A catalog item, with the fields the dispatcher reads
(`Book` type of the host application). -/
structure Book where
  title : String
  author : String
  subject : String
  difficulty_level : String
  target_age_min : Int
  target_age_max : Int
  description : Option String
deriving Repr

/-- The partial filter update passed to `onFilterChange`; each call of the
source sets exactly one of the fields, leaving the rest absent. -/
structure FilterCriteria where
  searchTerm : Option D := none
  selectedSubject : Option D := none
  selectedDifficulty : Option D := none
  ageRange : Option (D × D) := none
deriving Repr

/-- One invocation of a UI domain callback by the dispatcher. -/
inductive CallbackCall where
  | onFilterChange (c : FilterCriteria)
  | onBookRecommendation (bs : List Book)
deriving Repr

/-- The conversation handle returned by
`TavusService.createLibraryConversation` (storyData.ts), restricted to
the fields the controller uses. -/
structure TavusConversation where
  conversation_id : String
  conversation_url : String
deriving Repr, DecidableEq

/-- The three timers scheduled by `initializeAIAssistant`. -/
inductive TimerKind where
  | softWarning
  | finalWarning
  | hardTermination
deriving Repr, DecidableEq

/-- An externally observable action of the controller, in program order. -/
inductive Effect where
  | providerCreate
  | providerEnd (conversationId : String)
  | transportJoin (url : String)
  | transportLeave
  | transportDestroy
  | setLocalVideoOff
  | sendAppMessage (payload : D)
  | setTimeoutMs (kind : TimerKind) (delayMs : Nat)
deriving Repr

/-- The controller-owned session state: the `useState` values and `useRef`
cells of the LibraryAIAssistant component that the session lifecycle
touches.  `callObject` is `callObjectRef.current !== null`, `videoBound`
is `videoRef.current.srcObject !== null`. -/
structure SessionSt where
  callObject : Bool
  conversationId : Option String
  conversation : Option TavusConversation
  isConnected : Bool
  isConnecting : Bool
  replicaConnected : Bool
  connectionStatus : String
  error : Option String
  lastToolCall : String
  toolCallHistory : List String
  personaCreated : Bool
  naturalResponseCount : Nat
  restrictedResponseCount : Nat
  videoBound : Bool
deriving Repr

/-- The component's mount-time state (the `useState` initializers and null
refs). -/
def initialSessionState : SessionSt where
  callObject := false
  conversationId := none
  conversation := none
  isConnected := false
  isConnecting := false
  replicaConnected := false
  connectionStatus := "Ready to start"
  error := none
  lastToolCall := ""
  toolCallHistory := []
  personaCreated := false
  naturalResponseCount := 0
  restrictedResponseCount := 0
  videoBound := false

/-- `CONVERSATION_DURATION` (QuizModal.tsx:873): hard termination, ms. -/
def CONVERSATION_DURATION : Nat := 60000

/-- `WRAP_UP_TIME` (QuizModal.tsx:874): soft warning, ms. -/
def WRAP_UP_TIME : Nat := 45000

/-- `FINAL_WARNING_TIME` (QuizModal.tsx:875): intended final warning, ms.
Declared in the source but its use as a `setTimeout` delay is commented
out (line 952), so the final-warning timer is actually scheduled with no
delay argument. -/
def FINAL_WARNING_TIME : Nat := 55000

/-- `cleanupConversation` (QuizModal.tsx:825-853), the `stop()` of the
spec: leave and destroy the call object if present, end the provider
conversation if an id is held, then reset all session state and clear
the video sink.  Modelled on the success path of the awaited external
calls (a rejected `leave`/`endConversation` would skip the resets via
the surrounding `catch`). -/
def cleanupConversation (st : SessionSt) : SessionSt × List Effect :=
  let leaveEffs : List Effect :=
    if st.callObject then [.transportLeave, .transportDestroy] else []
  let endEffs : List Effect :=
    match st.conversationId with
    | some cid => [.providerEnd cid]
    | none => []
  ({ st with
      callObject := false
      conversation := none
      isConnected := false
      replicaConnected := false
      connectionStatus := "Ready to start"
      conversationId := none
      videoBound := false },
   leaveEffs ++ endEffs)

/-- The wrap-up instruction payload sent at the soft warning
(QuizModal.tsx:908-915). -/
def wrapUpInstruction (conversationId : String) : D :=
  .o [("message_type", .s "conversation"),
      ("event_type", .s "conversation.respond"),
      ("conversation_id", .s conversationId),
      ("properties", .o [("text", .s "We have about 15 seconds left. Please start wrapping up your response.")])]

/-- The final-warning payload (QuizModal.tsx:934-941). -/
def finalWarning (conversationId : String) : D :=
  .o [("message_type", .s "conversation"),
      ("event_type", .s "conversation.respond"),
      ("conversation_id", .s conversationId),
      ("properties", .o [("text", .s "URGENT: You have 5 seconds left. Please end your response immediately with a polite goodbye.")])]

/-- Firing of one of the three scheduled timer callbacks
(QuizModal.tsx:902-962).  Each callback re-reads the refs at fire time:
the two warning timers send their escalation message only while both the
call object and the conversation id are still held, and the termination
timer runs `cleanupConversation` only while a conversation id is held. -/
def fireTimer (st : SessionSt) (k : TimerKind) : SessionSt × List Effect :=
  match k with
  | .softWarning =>
    match st.conversationId with
    | some cid =>
      if st.callObject then (st, [.sendAppMessage (wrapUpInstruction cid)]) else (st, [])
    | none => (st, [])
  | .finalWarning =>
    match st.conversationId with
    | some cid =>
      if st.callObject then (st, [.sendAppMessage (finalWarning cid)]) else (st, [])
    | none => (st, [])
  | .hardTermination =>
    match st.conversationId with
    | some _ =>
      let (st1, effs) := cleanupConversation st
      ({ st1 with connectionStatus := "Conversation ended due to time limit" }, effs)
    | none => (st, [])

/-- `initializeAIAssistant` (QuizModal.tsx:866-971) together with
`joinConversation` (973-1007), the `start()` of the spec.  External
outcomes are oracle parameters: `configured` is
`TavusService.isConfigured()`, `personaId` is
`TavusService.getPersonaId()` (empty string = unset, making
`checkLibraryPersona` throw), `dailyLoaded` is `window.Daily`,
`createResult` is the awaited `createLibraryConversation`, and
`joinResult` the awaited `callObject.join`.  On full success the three
session timers are scheduled; note the final-warning `setTimeout` is
scheduled with delay 0 because its `FINAL_WARNING_TIME` argument is
commented out in the source (line 952). -/
def initializeAIAssistant (st : SessionSt) (configured : Bool)
    (personaId : String) (dailyLoaded : Bool)
    (createResult : Except String TavusConversation)
    (joinResult : Except String Unit) : SessionSt × List Effect :=
  if !configured then
    ({ st with error := some "Tavus not configured. Please check your environment variables." }, [])
  else
    let st := { st with
      isConnecting := true
      error := none
      connectionStatus := "Initializing AI assistant..." }
    if personaId = "" then
      ({ st with
          error := some "No persona ID configured. Please set either VITE_TAVUS_LIBRARY_PERSONA_ID or VITE_TAVUS_PERSONA_ID in your .env"
          connectionStatus := "Failed to create conversation"
          isConnecting := false }, [])
    else
      let st := { st with connectionStatus := "Creating conversation with book catalog..." }
      match createResult with
      | .error msg =>
        ({ st with
            error := some (if msg = "" then "Failed to create conversation" else msg)
            connectionStatus := "Failed to create conversation"
            isConnecting := false },
         [.providerCreate])
      | .ok conv =>
        let st := { st with
          conversation := some conv
          conversationId := some conv.conversation_id
          connectionStatus := "Conversation created with book restrictions! Joining..." }
        if !dailyLoaded then
          ({ st with
              error := some "Daily.co library not loaded"
              connectionStatus := "Failed to create conversation"
              isConnecting := false },
           [.providerCreate])
        else
          let st := { st with
            connectionStatus := "Joining conversation..."
            callObject := true }
          match joinResult with
          | .error msg =>
            ({ st with
                error := some (if msg = "" then "Failed to create conversation" else msg)
                connectionStatus := "Failed to create conversation"
                isConnecting := false },
             [.providerCreate, .transportJoin conv.conversation_url])
          | .ok _ =>
            ({ st with
                isConnected := true
                connectionStatus := "Connected - waiting for Library  assistant..."
                isConnecting := false },
             [.providerCreate, .transportJoin conv.conversation_url,
              .setLocalVideoOff,
              .setTimeoutMs .softWarning WRAP_UP_TIME,
              .setTimeoutMs .finalWarning 0,
              .setTimeoutMs .hardTermination CONVERSATION_DURATION])

/-- `restartConversation` (QuizModal.tsx:1473-1481), the `restart()` of
the spec: `cleanupConversation`, reset the persona flag and the two
response counters, then (after a 1 s `setTimeout`, elided here)
`initializeAIAssistant` with fresh external outcomes. -/
def restartConversation (st : SessionSt) (configured : Bool)
    (personaId : String) (dailyLoaded : Bool)
    (createResult : Except String TavusConversation)
    (joinResult : Except String Unit) : SessionSt × List Effect :=
  let (st1, e1) := cleanupConversation st
  let st2 := { st1 with
    personaCreated := false
    naturalResponseCount := 0
    restrictedResponseCount := 0 }
  let (st3, e3) := initializeAIAssistant st2 configured personaId dailyLoaded
    createResult joinResult
  (st3, e1 ++ e3)

/-- JavaScript `list.slice(-n)`: the last `n` elements. -/
def takeLast (n : Nat) (l : List String) : List String :=
  l.drop (l.length - n)

/-- JavaScript `<=` between a number and an untyped value, as used by the
age filter: true only when the value is a number that is ≥ the left side
(comparison with `undefined` is false; the string-to-number coercion
corner of JavaScript is not exercised by any claim and is modelled as
false). -/
def jsLeNum (a : Int) (d : D) : Bool :=
  match d with
  | .n i => decide (a ≤ i)
  | _ => false

/-- JavaScript `>=` between a number and an untyped value (see
`jsLeNum`). -/
def jsGeNum (a : Int) (d : D) : Bool :=
  match d with
  | .n i => decide (i ≤ a)
  | _ => false

/-- `getRecommendedBooks` (QuizModal.tsx:1425-1437): case-insensitive
substring match of the preference string against title, description,
subject and author, first 6 matches in catalog order. -/
def getRecommendedBooks (books : List Book) (preferences : String) : List Book :=
  let lowerPrefs := strToLower preferences
  (books.filter (fun book =>
    strIncludes (strToLower book.title) lowerPrefs ||
    (match book.description with
     | some d => strIncludes (strToLower d) lowerPrefs
     | none => false) ||
    strIncludes (strToLower book.subject) lowerPrefs ||
    strIncludes (strToLower book.author) lowerPrefs)).take 6

/-- `executeToolCall` (QuizModal.tsx:1272-1343), the `ToolCallDispatcher`:
record the rendered call in the last-call slot and the bounded history
(`prev.slice(-4)` + new entry = last 5), then dispatch on
`function_name`.  Returns the updated state and the UI-callback
invocations.  A thrown JavaScript error (property access on missing
`arguments`, or a string method on a non-string argument) is caught by
the source's `catch`, which sets the error status and makes no callback
invocation. -/
def executeToolCall (books : List Book) (st : SessionSt) (tc : ToolCall) :
    SessionSt × List CallbackCall :=
  let args := tc.arguments
  let toolCallString :=
    tc.function_name.jsToString ++ "(" ++ args.stringify ++ ")"
  let st := { st with
    lastToolCall := toolCallString
    toolCallHistory := takeLast 4 st.toolCallHistory ++ [toolCallString] }
  let errSt := { st with connectionStatus := "❌ Error executing action" }
  match tc.function_name with
  | .s "filter_books_by_subject" =>
    match args with
    | .null => (errSt, [])
    | _ =>
      let subject := args.get "subject"
      let subjectBooks := books.filter (fun book =>
        dEqStr subject "ALL" || dEqStr subject book.subject)
      ({ st with connectionStatus :=
          "✅ Showing " ++ toString subjectBooks.length ++ " " ++
            subject.jsToString ++ " books from our catalog" },
       [.onFilterChange { selectedSubject := some subject }])
  | .s "filter_books_by_difficulty" =>
    match args with
    | .null => (errSt, [])
    | _ =>
      let difficulty := args.get "difficulty"
      let difficultyBooks := books.filter (fun book =>
        dEqStr difficulty "ALL" || dEqStr difficulty book.difficulty_level)
      ({ st with connectionStatus :=
          "✅ Showing " ++ toString difficultyBooks.length ++ " " ++
            difficulty.jsToString ++ " books" },
       [.onFilterChange { selectedDifficulty := some difficulty }])
  | .s "search_books" =>
    match args with
    | .null => (errSt, [])
    | _ =>
      match args.get "searchTerm", books with
      | .s term, _ =>
        let searchResults := books.filter (fun book =>
          strIncludes (strToLower book.title) (strToLower term) ||
          (match book.description with
           | some d => strIncludes (strToLower d) (strToLower term)
           | none => false) ||
          strIncludes (strToLower book.author) (strToLower term))
        ({ st with connectionStatus :=
            "✅ Found " ++ toString searchResults.length ++ " \"" ++ term ++ "\" books" },
         [.onFilterChange { searchTerm := some (.s term) }])
      | other, [] =>
        ({ st with connectionStatus :=
            "✅ Found 0 \"" ++ other.jsToString ++ "\" books" },
         [.onFilterChange { searchTerm := some other }])
      | _, _ :: _ => (errSt, [])
  | .s "filter_books_by_age" =>
    match args with
    | .null => (errSt, [])
    | _ =>
      let minAge := args.get "minAge"
      let maxAge := args.get "maxAge"
      let ageBooks := books.filter (fun book =>
        jsLeNum book.target_age_min maxAge && jsGeNum book.target_age_max minAge)
      ({ st with connectionStatus :=
          "✅ Showing " ++ toString ageBooks.length ++ " books for ages " ++
            minAge.jsToString ++ "-" ++ maxAge.jsToString ++ " " },
       [.onFilterChange { ageRange := some (minAge, maxAge) }])
  | .s "recommend_books" =>
    match args with
    | .null => (errSt, [])
    | _ =>
      match args.get "preferences" with
      | .s preferences =>
        let recommendedBooks := getRecommendedBooks books preferences
        ({ st with connectionStatus :=
            "✅ Found " ++ toString recommendedBooks.length ++ " recommendations" },
         [.onBookRecommendation recommendedBooks])
      | _ => (errSt, [])
  | other =>
    ({ st with connectionStatus := "❓ Unknown action: " ++ other.jsToString }, [])

/-- The state of one remote track as reported by
`callObject.participants()`. -/
structure TrackInfo where
  state : String
  persistentTrack : Option String
deriving Repr

/-- The two tracks of a remote participant. -/
structure ParticipantTracks where
  video : Option TrackInfo
  audio : Option TrackInfo
deriving Repr

/-- An attachment of a remote track to the local video element performed
by `displayReplicaVideo` / `handleReplicaAudio`. -/
inductive MediaAction where
  | attachVideo (track : String)
  | attachAudio (track : String)
deriving Repr, DecidableEq

/-- One iteration of the `forEach` in `updateReplicaVideo`
(QuizModal.tsx:1352-1381): skip the local participant; raise the
replica-connected signal when both tracks are playable; attach a
playable video track (`displayReplicaVideo` sets `srcObject`); attach a
playable audio track only when a video stream is already bound
(`handleReplicaAudio` requires `videoRef.current.srcObject`). -/
def updateReplicaStep (bookCount : Nat)
    (acc : SessionSt × List MediaAction × Bool)
    (p : String × ParticipantTracks) : SessionSt × List MediaAction × Bool :=
  let (st, acts, hasWorking) := acc
  if p.1 = "local" then acc
  else
    let videoPlayable :=
      match p.2.video with
      | some t => decide (t.state = "playable")
      | none => false
    let audioPlayable :=
      match p.2.audio with
      | some t => decide (t.state = "playable")
      | none => false
    let (st, hasWorking) :=
      if videoPlayable && audioPlayable then
        ({ st with
            replicaConnected := true
            connectionStatus :=
              "🔒 Library assistant ready! we have " ++ toString bookCount ++
                " books in our catalog"
            isConnecting := false },
         true)
      else (st, hasWorking)
    let (st, acts) :=
      if videoPlayable then
        match p.2.video with
        | some t =>
          match t.persistentTrack with
          | some track => ({ st with videoBound := true }, acts ++ [.attachVideo track])
          | none => (st, acts)
        | none => (st, acts)
      else (st, acts)
    let (st, acts) :=
      if audioPlayable then
        match p.2.audio with
        | some t =>
          match t.persistentTrack with
          | some track =>
            if st.videoBound then (st, acts ++ [.attachAudio track]) else (st, acts)
          | none => (st, acts)
        | none => (st, acts)
      else (st, acts)
    (st, acts, hasWorking)

/-- `updateReplicaVideo` (QuizModal.tsx:1345-1387), the `MediaBinder`:
walk the participant map; if no participant had both tracks playable,
lower the replica-connected signal. -/
def updateReplicaVideo (bookCount : Nat) (st : SessionSt)
    (participants : List (String × ParticipantTracks)) :
    SessionSt × List MediaAction :=
  if !st.callObject then (st, [])
  else
    let r := participants.foldl (updateReplicaStep bookCount) (st, [], false)
    if !r.2.2 then
      ({ r.1 with
          replicaConnected := false
          connectionStatus := "Connected - waiting for assistant media..." },
       r.2.1)
    else (r.1, r.2.1)

/-- A `JSON.parse` oracle that always throws; usable whenever the payload
under test carries object-valued arguments, which never reach the
parser. -/
def parseNever : String → Option D := fun _ => none

/-- The canonical tool call of claim C3:
`filter_books_by_subject(subject="SCIENCE")`. -/
def canonicalScienceCall : ToolCall :=
  ⟨.s "filter_books_by_subject", .o [("subject", .s "SCIENCE")]⟩

/-- Wire shape 1: direct `function_name`/`arguments` fields. -/
def wireShapeDirect : D :=
  .o [("function_name", .s "filter_books_by_subject"),
      ("arguments", .o [("subject", .s "SCIENCE")])]

/-- Wire shape 2: descriptor nested under `properties`. -/
def wireShapeProperties : D :=
  .o [("properties", wireShapeDirect)]

/-- Wire shape 3: OpenAI-style `tool_calls` array, first element. -/
def wireShapeToolCallsArray : D :=
  .o [("tool_calls",
       .a [.o [("function",
                .o [("name", .s "filter_books_by_subject"),
                    ("arguments", .o [("subject", .s "SCIENCE")])])]])]

/-- Wire shape 4: event-type-tagged wrapper with the descriptor under
`properties`. -/
def wireShapeEventTagged : D :=
  .o [("event_type", .s "conversation.toolcall"),
      ("properties", wireShapeDirect)]

/-- Wire shape 5: GPT-style `choices` wrapper. -/
def wireShapeChoices : D :=
  .o [("choices",
       .a [.o [("message",
                .o [("tool_calls",
                     .a [.o [("function",
                              .o [("name", .s "filter_books_by_subject"),
                                  ("arguments", .o [("subject", .s "SCIENCE")])])]])])]])]

/-- Wire shape 6: bare `function` descriptor. -/
def wireShapeBareFunction : D :=
  .o [("function",
       .o [("name", .s "filter_books_by_subject"),
           ("arguments", .o [("subject", .s "SCIENCE")])])]

/-- A payload on which strategy 4's guard matches (`message_type:
"conversation"` with a truthy `properties`) while the nested extraction
finds nothing, although the bare-function strategy 6 would succeed. -/
def shortCircuitPayload : D :=
  .o [("message_type", .s "conversation"),
      ("properties", .o [("foo", .n 1)]),
      ("function",
       .o [("name", .s "filter_books_by_subject"),
           ("arguments", .o [("subject", .s "SCIENCE")])])]

/-- C3 counterexample: the normalizer is not the
first-successful-strategy semantics the claim states.  On
`shortCircuitPayload`, strategy 4's guard matches and its nested
extraction fails, and the source `return`s that empty result without
trying the remaining strategies — although strategy 6 succeeds on the
same payload, so the first-success normalizer produces the canonical
call while `extractToolCallFromData` produces none. -/
theorem normalizer_is_not_first_success :
    extractToolCallFromData parseNever shortCircuitPayload = .ok none ∧
    firstSuccessNormalizer parseNever shortCircuitPayload =
      .ok (some canonicalScienceCall) := by
  constructor
  · rw [shortCircuitPayload, extractToolCallFromData]
    simp only [D.get, getField, D.truthy, dEqStr, tryToolCallsArray]
    rw [extractToolCallFromData]
    simp [D.get, getField, D.truthy, dEqStr, tryToolCallsArray]
  · rw [shortCircuitPayload, firstSuccessNormalizer]
    simp only [strategy1, strategy2, strategy3, strategy4, strategy5, strategy6,
      orTryCall, D.get, getField, D.truthy, dEqStr, tryToolCallsArray]
    rw [extractToolCallFromData]
    simp [D.get, getField, D.truthy, dEqStr, tryToolCallsArray,
      canonicalScienceCall]

/-- C3 (amended): the normalizer tries the six extraction strategies in
source order and commits to the first whose guard matches — strategies 4
and 5 return their nested extraction even when it yields no call, so a
later strategy is then not consulted (witnessed by `shortCircuitPayload`)
— and the same logical tool call `filter_books_by_subject(subject =
"SCIENCE")` encoded in each of the six wire shapes normalizes to the
identical canonical tool call. -/
theorem six_wire_shapes_normalize_identically :
    extractToolCallFromData parseNever wireShapeDirect =
      .ok (some canonicalScienceCall) ∧
    extractToolCallFromData parseNever wireShapeProperties =
      .ok (some canonicalScienceCall) ∧
    extractToolCallFromData parseNever wireShapeToolCallsArray =
      .ok (some canonicalScienceCall) ∧
    extractToolCallFromData parseNever wireShapeEventTagged =
      .ok (some canonicalScienceCall) ∧
    extractToolCallFromData parseNever wireShapeChoices =
      .ok (some canonicalScienceCall) ∧
    extractToolCallFromData parseNever wireShapeBareFunction =
      .ok (some canonicalScienceCall) ∧
    extractToolCallFromData parseNever shortCircuitPayload = .ok none := by
  refine ⟨?_, ?_, ?_, ?_, ?_, ?_, ?_⟩
  · rw [wireShapeDirect, extractToolCallFromData]
    simp [D.get, getField, D.truthy, dEqStr, tryToolCallsArray, canonicalScienceCall]
  · rw [wireShapeProperties, wireShapeDirect, extractToolCallFromData]
    simp [D.get, getField, D.truthy, dEqStr, tryToolCallsArray, canonicalScienceCall]
  · rw [wireShapeToolCallsArray, extractToolCallFromData]
    simp [D.get, getField, D.truthy, dEqStr, tryToolCallsArray, canonicalScienceCall]
  · rw [wireShapeEventTagged, wireShapeDirect, extractToolCallFromData]
    simp [D.get, getField, D.truthy, dEqStr, tryToolCallsArray, canonicalScienceCall]
  · rw [wireShapeChoices, extractToolCallFromData]
    simp [D.get, getField, D.truthy, dEqStr, tryToolCallsArray, canonicalScienceCall]
  · rw [wireShapeBareFunction, extractToolCallFromData]
    simp [D.get, getField, D.truthy, dEqStr, tryToolCallsArray, canonicalScienceCall]
  · rw [shortCircuitPayload, extractToolCallFromData]
    simp only [D.get, getField, D.truthy, dEqStr, tryToolCallsArray]
    rw [extractToolCallFromData]
    simp [D.get, getField, D.truthy, dEqStr, tryToolCallsArray]

/-- C5: a transport event on which the normalizer finds nothing — on any
of the payload projections `handleTavusEvent` feeds it — and which is not
a recognized user-utterance event never reaches `executeToolCall`: the
handler dispatches no tool call. -/
theorem unmatched_event_never_dispatched (parse : String → Option D) (event : D)
    (h1 : extractToolCallFromData parse (event.get "data") = .ok none)
    (h2 : extractToolCallFromData parse event = .ok none)
    (h3 : extractToolCallFromData parse (event.get "payload") = .ok none)
    (h4 : extractToolCallFromData parse (event.get "message") = .ok none)
    (h5 : isUserUtterance event = false) :
    handleTavusEvent parse event = none := by
  have hcore : handleTavusEventCore parse event = .ok none ∨
      handleTavusEventCore parse event = .error () := by
    unfold handleTavusEventCore
    by_cases hd : (event.get "data").truthy = true <;>
      by_cases hp : (event.get "payload").truthy = true <;>
        by_cases hm : (event.get "message").truthy = true <;>
          simp only [hd, hp, hm, if_true, if_false, h1, h2, h3, h4, orTryCall,
            Bool.true_and, Bool.false_and, Bool.and_self, if_neg,
            eq_self_iff_true, not_true, not_false_iff, ite_true, ite_false] <;>
      · by_cases hg : isUserUtteranceGuard event = true
        · have hspeech :
              (match ((event.get "data").get "properties").get "speech" with
                | D.s _ => true
                | _ => false) = false := by
            unfold isUserUtterance at h5
            simp only [hg, Bool.true_and] at h5
            exact h5
          rcases hsp : ((event.get "data").get "properties").get "speech" <;>
            simp only [hsp] at hspeech ⊢ <;>
            rcases het : (event.get "data").get "event_type" <;>
              simp [hg, h1, hd, het] <;>
              first
                | rfl
                | (split <;> first
                    | (split_ifs at * <;> simp_all)
                    | simp_all)
                | simp_all
        · rcases het : (event.get "data").get "event_type" <;>
            simp [hg, h1, hd, het] <;>
            first
              | rfl
              | (split <;> first
                  | (split_ifs at * <;> simp_all)
                  | simp_all)
              | simp_all
  cases hcore with
  | inl h =>
    unfold handleTavusEvent
    rw [h]
  | inr h =>
    unfold handleTavusEvent
    rw [h]

/-- Witness for `unmatched_event_never_dispatched`: a concrete event that
matches no strategy and is no user utterance is not dispatched. -/
theorem unmatched_event_never_dispatched_witness :
    handleTavusEvent parseNever (D.o [("hello", D.s "world")]) = none :=
  unmatched_event_never_dispatched parseNever (D.o [("hello", D.s "world")])
    (by rw [extractToolCallFromData]
        simp [D.get, getField, D.truthy, dEqStr, tryToolCallsArray])
    (by rw [extractToolCallFromData]
        simp [D.get, getField, D.truthy, dEqStr, tryToolCallsArray])
    (by rw [extractToolCallFromData]
        simp [D.get, getField, D.truthy, dEqStr, tryToolCallsArray])
    (by rw [extractToolCallFromData]
        simp [D.get, getField, D.truthy, dEqStr, tryToolCallsArray])
    (by decide)

/-- Number of provider conversation-termination calls in an effect
trace. -/
def countProviderEnd (effs : List Effect) : Nat :=
  (effs.filter (fun e =>
    match e with
    | .providerEnd _ => true
    | _ => false)).length

/-- C2 counterexample: from the idle mount state, where no conversation
handle exists, two successive stop() calls perform zero provider
conversation-termination calls — not exactly one, as the claim asserts
for every pre-stop state. -/
theorem stop_twice_from_idle_no_provider_end :
    countProviderEnd ((cleanupConversation initialSessionState).2 ++
        (cleanupConversation (cleanupConversation initialSessionState).1).2) = 0 ∧
    (0 : Nat) ≠ 1 := by
  exact ⟨rfl, by decide⟩

/-- C2 (amended): stop() is idempotent — a second stop() started after the
first completes leaves the state exactly as the first left it and emits
no effect at all — and across the two calls the provider-termination
call happens exactly once when a conversation handle was held before the
first call, and zero times otherwise. -/
theorem stop_idempotent_one_provider_end (st : SessionSt) :
    (cleanupConversation (cleanupConversation st).1).1 = (cleanupConversation st).1 ∧
    (cleanupConversation (cleanupConversation st).1).2 = [] ∧
    countProviderEnd ((cleanupConversation st).2 ++
        (cleanupConversation (cleanupConversation st).1).2) =
      (if st.conversationId.isSome then 1 else 0) := by
  refine ⟨rfl, rfl, ?_⟩
  cases hc : st.conversationId <;>
    by_cases hco : st.callObject = true <;>
      simp [cleanupConversation, countProviderEnd, hc, hco]

/-- Timer schedule extracted from an effect trace. -/
def scheduledDelays (effs : List Effect) : List (TimerKind × Nat) :=
  effs.filterMap (fun e =>
    match e with
    | .setTimeoutMs k d => some (k, d)
    | _ => none)

/-- C1 (documenting the code bug): after a successful join, the source
schedules the soft warning at T+45000 ms and the hard termination at
T+60000 ms as claimed, but the final (hard) warning is scheduled with
delay 0 — its `FINAL_WARNING_TIME` (= 55000) argument is commented out at
QuizModal.tsx:952, so `setTimeout` runs the callback immediately — in
contradiction with the claimed T+55000 and with the source's own
declaration and comment "Final warning at 55 seconds".  Further, stop()
does not cancel the three timers, but each timer callback re-reads the
refs at fire time, so once `cleanupConversation` has run, a late firing
sends no escalation message and does not re-enter the cleanup. -/
theorem final_warning_scheduled_at_zero (st st2 : SessionSt)
    (conv : TavusConversation) (k : TimerKind) :
    scheduledDelays (initializeAIAssistant st true "p" true (.ok conv) (.ok ())).2 =
      [(.softWarning, WRAP_UP_TIME), (.finalWarning, 0),
       (.hardTermination, CONVERSATION_DURATION)] ∧
    WRAP_UP_TIME = 45000 ∧
    CONVERSATION_DURATION = 60000 ∧
    FINAL_WARNING_TIME = 55000 ∧
    (0 : Nat) ≠ FINAL_WARNING_TIME ∧
    fireTimer (cleanupConversation st2).1 k = ((cleanupConversation st2).1, []) := by
  refine ⟨?_, rfl, rfl, rfl, by decide, ?_⟩
  · simp [initializeAIAssistant, scheduledDelays]
  · cases k <;> rfl

/-- C4 counterexample: with valid configuration and persona, a successful
provider create (handle `c1`) and a failing transport join, start()'s
failure handling records the reason but ends no conversation: no
provider-end effect is emitted and the conversation id `c1` is still
held afterwards — a dangling handle, contradicting the claim. -/
theorem join_failure_leaves_dangling_handle :
    (initializeAIAssistant initialSessionState true "p" true
        (.ok ⟨"c1", "u1"⟩) (.error "boom")).1.conversationId = some "c1" ∧
    countProviderEnd (initializeAIAssistant initialSessionState true "p" true
        (.ok ⟨"c1", "u1"⟩) (.error "boom")).2 = 0 ∧
    (initializeAIAssistant initialSessionState true "p" true
        (.ok ⟨"c1", "u1"⟩) (.error "boom")).1.error = some "boom" :=
  ⟨rfl, rfl, rfl⟩

/-- C4 (amended): when start() fails in the provider-create step the
controller records the captured reason and the failed status, and no
handle was created (the held conversation id is unchanged); when it
fails in the transport-join step it records the reason and the failed
status, but the handle created before the failure is NOT ended during
failure handling — no provider-end effect is emitted and both the
conversation id and the created call object remain held until a later
cleanupConversation. -/
theorem start_failure_keeps_handle (st : SessionSt) (personaId : String)
    (jr : Except String Unit) (conv : TavusConversation) (msg : String)
    (hp : personaId ≠ "") :
    ((initializeAIAssistant st true personaId true (.error msg) jr).1.error =
        some (if msg = "" then "Failed to create conversation" else msg) ∧
      (initializeAIAssistant st true personaId true (.error msg) jr).1.connectionStatus =
        "Failed to create conversation" ∧
      (initializeAIAssistant st true personaId true (.error msg) jr).1.conversationId =
        st.conversationId ∧
      countProviderEnd (initializeAIAssistant st true personaId true (.error msg) jr).2 = 0) ∧
    ((initializeAIAssistant st true personaId true (.ok conv) (.error msg)).1.error =
        some (if msg = "" then "Failed to create conversation" else msg) ∧
      (initializeAIAssistant st true personaId true (.ok conv) (.error msg)).1.connectionStatus =
        "Failed to create conversation" ∧
      (initializeAIAssistant st true personaId true (.ok conv) (.error msg)).1.conversationId =
        some conv.conversation_id ∧
      (initializeAIAssistant st true personaId true (.ok conv) (.error msg)).1.callObject =
        true ∧
      countProviderEnd (initializeAIAssistant st true personaId true (.ok conv) (.error msg)).2 = 0) := by
  unfold initializeAIAssistant
  simp [hp, countProviderEnd]

/-- Witness for `start_failure_keeps_handle` at concrete inputs. -/
theorem start_failure_keeps_handle_witness :
    (initializeAIAssistant initialSessionState true "p2" true
        (.error "create failed") (.ok ())).1.error = some "create failed" ∧
    (initializeAIAssistant initialSessionState true "p2" true
        (.ok ⟨"c9", "u9"⟩) (.error "join failed")).1.conversationId = some "c9" := by
  have h := start_failure_keeps_handle initialSessionState "p2" (.ok ())
    ⟨"c9", "u9"⟩ "join failed" (by decide)
  have h2 := start_failure_keeps_handle initialSessionState "p2" (.ok ())
    ⟨"c9", "u9"⟩ "create failed" (by decide)
  exact ⟨by simpa using h2.1.1, by simpa using h.2.2.2.1⟩

theorem init_preserves_history (st : SessionSt) (c : Bool) (p : String)
    (dl : Bool) (cr : Except String TavusConversation) (jr : Except String Unit) :
    (initializeAIAssistant st c p dl cr jr).1.toolCallHistory = st.toolCallHistory ∧
    (initializeAIAssistant st c p dl cr jr).1.lastToolCall = st.lastToolCall ∧
    (initializeAIAssistant st c p dl cr jr).1.naturalResponseCount =
      st.naturalResponseCount ∧
    (initializeAIAssistant st c p dl cr jr).1.restrictedResponseCount =
      st.restrictedResponseCount ∧
    (initializeAIAssistant st c p dl cr jr).1.personaCreated = st.personaCreated := by
  unfold initializeAIAssistant
  cases c <;> by_cases hp : p = "" <;> cases cr <;> cases dl <;> cases jr <;>
    simp [hp]

/-- A pre-stop state in which a tool call has already been recorded. -/
def historySessionState : SessionSt :=
  { initialSessionState with
      toolCallHistory := ["previous_call"]
      lastToolCall := "previous_call"
      naturalResponseCount := 2
      restrictedResponseCount := 2 }

/-- C9 counterexample: after restart() — stop, counter resets, fresh
start, all succeeding — the bounded tool-call history and the last-call
slot still hold the pre-restart entry; restart() does not clear them as
the claim states. -/
theorem restart_keeps_tool_call_history :
    (restartConversation historySessionState true "p" true
        (.ok ⟨"c2", "u2"⟩) (.ok ())).1.toolCallHistory = ["previous_call"] ∧
    (restartConversation historySessionState true "p" true
        (.ok ⟨"c2", "u2"⟩) (.ok ())).1.lastToolCall = "previous_call" ∧
    (["previous_call"] : List String) ≠ [] := by
  refine ⟨rfl, rfl, by decide⟩

/-- C9 (amended): restart() is stop() (`cleanupConversation`) followed —
after a 1 s delay — by a fresh start() (`initializeAIAssistant`), and it
resets the two session counters and the persona flag before the new
session begins; it does NOT clear the bounded tool-call history or the
last-call slot, which survive the restart unchanged. -/
theorem restart_resets_counters_not_history (st : SessionSt) (c : Bool)
    (p : String) (dl : Bool) (cr : Except String TavusConversation)
    (jr : Except String Unit) :
    (restartConversation st c p dl cr jr).1.toolCallHistory = st.toolCallHistory ∧
    (restartConversation st c p dl cr jr).1.lastToolCall = st.lastToolCall ∧
    (restartConversation st c p dl cr jr).1.naturalResponseCount = 0 ∧
    (restartConversation st c p dl cr jr).1.restrictedResponseCount = 0 ∧
    (restartConversation st c p dl cr jr).1.personaCreated = false ∧
    restartConversation st c p dl cr jr =
      ((initializeAIAssistant
          { (cleanupConversation st).1 with
              personaCreated := false
              naturalResponseCount := 0
              restrictedResponseCount := 0 } c p dl cr jr).1,
       (cleanupConversation st).2 ++
         (initializeAIAssistant
            { (cleanupConversation st).1 with
                personaCreated := false
                naturalResponseCount := 0
                restrictedResponseCount := 0 } c p dl cr jr).2) := by
  have h := init_preserves_history
    { (cleanupConversation st).1 with
        personaCreated := false
        naturalResponseCount := 0
        restrictedResponseCount := 0 } c p dl cr jr
  obtain ⟨h1, h2, h3, h4, h5⟩ := h
  exact ⟨h1, h2, h3, h4, h5, rfl⟩

/-- A concrete catalog of 10 items, 3 of which carry subject `SCIENCE`,
and in which no item's title, description, subject or author contains
"dragon" (case-insensitively). -/
def cat10 : List Book :=
  [⟨"Hoppy the Rabbit", "Jane Reed", "STORY", "beginner", 4, 7,
    some "A little rabbit explores the forest"⟩,
   ⟨"Counting Stars", "Alan Price", "MATHS", "beginner", 5, 8,
    some "Learn to count with the night sky"⟩,
   ⟨"The Water Cycle", "Mary Lake", "SCIENCE", "intermediate", 7, 10,
    some "How rain forms and falls"⟩,
   ⟨"Flutter the Bird", "Jane Reed", "STORY", "beginner", 4, 7, none⟩,
   ⟨"Planets Around Us", "Carl Moon", "SCIENCE", "advanced", 9, 12,
    some "A tour of the solar system"⟩,
   ⟨"Shapes Everywhere", "Alan Price", "MATHS", "beginner", 4, 6,
    some "Circles, squares and triangles"⟩,
   ⟨"The Busy Ant Colony", "Mary Lake", "SCIENCE", "intermediate", 7, 10,
    some "Life inside an ant hill"⟩,
   ⟨"The Greatest Adventure", "Tom Field", "STORY", "intermediate", 6, 9,
    some "Helping others is the greatest adventure"⟩,
   ⟨"Addition Fun", "Alan Price", "MATHS", "intermediate", 6, 9, none⟩,
   ⟨"The Lost Kite", "Tom Field", "STORY", "beginner", 4, 7,
    some "A windy day in the park"⟩]

/-- Modelled from the spec's words for the subject filter: the match
count is computed "against the in-memory catalog for status display
(case-sensitive exact match except sentinel `ALL`, which matches
everything)". -/
def subjectMatchCountSpec (books : List Book) (subject : String) : Nat :=
  if subject = "ALL" then books.length
  else (books.filter (fun b => b.subject = subject)).length

/-- C6: dispatching `filter_books_by_subject` with a string subject
argument invokes the filter callback exactly once, passing the subject
through unchanged as the partial criteria update, and the reported match
count (embedded in the status line) equals the spec's count — case-
sensitive exact equality on the subject field, with sentinel `ALL`
matching every item; in particular on the 10-item catalog with 3
`SCIENCE` items the count is 3 and `onFilterChange(\x7b selectedSubject:
"SCIENCE" \x7d)` is invoked exactly once. -/
theorem filter_by_subject_dispatch (books : List Book) (st : SessionSt)
    (s : String) :
    (executeToolCall books st
        ⟨.s "filter_books_by_subject", .o [("subject", .s s)]⟩).2 =
      [.onFilterChange { selectedSubject := some (.s s) }] ∧
    (executeToolCall books st
        ⟨.s "filter_books_by_subject", .o [("subject", .s s)]⟩).1.connectionStatus =
      "✅ Showing " ++ toString (subjectMatchCountSpec books s) ++ " " ++ s ++
        " books from our catalog" ∧
    subjectMatchCountSpec cat10 "SCIENCE" = 3 ∧
    (executeToolCall cat10 initialSessionState
        ⟨.s "filter_books_by_subject", .o [("subject", .s "SCIENCE")]⟩).2 =
      [.onFilterChange { selectedSubject := some (.s "SCIENCE") }] := by
  refine ⟨rfl, ?_, by decide, rfl⟩
  have hcount :
      (books.filter (fun book =>
        dEqStr (.s s) "ALL" || dEqStr (.s s) book.subject)).length =
        subjectMatchCountSpec books s := by
    unfold subjectMatchCountSpec
    by_cases hall : s = "ALL"
    · simp [hall, dEqStr]
    · simp [dEqStr, hall, eq_comm]
  unfold executeToolCall
  simp only [D.get, getField, D.truthy, D.jsToString, reduceIte]
  rw [hcount]

/-- Modelled from the spec's words for `recommend_books`: a catalog item
matches when the free-text preference string occurs case-insensitively
as a substring of its title, description, subject, or author. -/
def matchesPreferenceSpec (b : Book) (preferences : String) : Bool :=
  strIncludes (strToLower b.title) (strToLower preferences) ||
  (match b.description with
   | some d => strIncludes (strToLower d) (strToLower preferences)
   | none => false) ||
  strIncludes (strToLower b.subject) (strToLower preferences) ||
  strIncludes (strToLower b.author) (strToLower preferences)

/-- Modelled from the spec's words: `recommend_books` "returns at most 6
matches, in catalog order". -/
def recommendBooksSpec (books : List Book) (preferences : String) : List Book :=
  (books.filter (fun b => matchesPreferenceSpec b preferences)).take 6

/-- C7: dispatching `recommend_books` with a preference string invokes the
recommendation callback (not the filter callback) exactly once with the
case-insensitive substring matches over title, description, subject and
author, at most the first 6 in catalog order; in particular, when no
catalog item matches "dragon", the callback receives the empty list. -/
theorem recommend_books_dispatch (books : List Book) (st : SessionSt)
    (p : String) :
    ((executeToolCall books st
        ⟨.s "recommend_books", .o [("preferences", .s p)]⟩).2 =
      [.onBookRecommendation (recommendBooksSpec books p)]) ∧
    ((∀ b ∈ books, matchesPreferenceSpec b "dragon" = false) →
      (executeToolCall books st
          ⟨.s "recommend_books", .o [("preferences", .s "dragon")]⟩).2 =
        [.onBookRecommendation []]) := by
  have hrec : ∀ q : String,
      getRecommendedBooks books q = recommendBooksSpec books q := by
    intro q
    unfold getRecommendedBooks recommendBooksSpec matchesPreferenceSpec
    rfl
  constructor
  · unfold executeToolCall
    simp only [D.get, getField, D.truthy, reduceIte]
    rw [hrec]
  · intro hnone
    unfold executeToolCall
    simp only [D.get, getField, D.truthy, reduceIte]
    rw [hrec]
    unfold recommendBooksSpec
    rw [List.filter_eq_nil_iff.mpr (by simpa using hnone)]
    rfl

/-- Witness for `recommend_books_dispatch` on the dragon-free catalog. -/
theorem recommend_books_dispatch_witness :
    (executeToolCall cat10 initialSessionState
        ⟨.s "recommend_books", .o [("preferences", .s "dragon")]⟩).2 =
      [.onBookRecommendation []] :=
  (recommend_books_dispatch cat10 initialSessionState "x").2 (by decide)

theorem strIncludes_empty (s : String) : strIncludes s "" = true := by
  have h : listInfix [] s.data = true := by
    rw [listInfix.eq_def]
    simp [listIsPrefix]
  exact h

/-- C10: dispatching `recommend_books` with the empty preference string
matches every catalog item (empty-substring matching), so the
recommendation callback receives exactly the first `min(6, catalog
size)` items in catalog order, for every catalog. -/
theorem recommend_books_empty_preferences (books : List Book) (st : SessionSt) :
    (executeToolCall books st
        ⟨.s "recommend_books", .o [("preferences", .s "")]⟩).2 =
      [.onBookRecommendation (books.take 6)] := by
  unfold executeToolCall
  simp only [D.get, getField, D.truthy, reduceIte]
  unfold getRecommendedBooks
  have : books.filter (fun book =>
      strIncludes (strToLower book.title) (strToLower "") ||
      (match book.description with
       | some d => strIncludes (strToLower d) (strToLower "")
       | none => false) ||
      strIncludes (strToLower book.subject) (strToLower "") ||
      strIncludes (strToLower book.author) (strToLower "")) = books := by
    rw [List.filter_eq_self]
    intro b _
    have h0 : strToLower "" = "" := rfl
    simp [h0, strIncludes_empty]
  simp only [this]

/-- Whether a participant's video track reports the playable state. -/
def videoPlayableOf (tr : ParticipantTracks) : Bool :=
  match tr.video with
  | some t => decide (t.state = "playable")
  | none => false

/-- Whether a participant's audio track reports the playable state. -/
def audioPlayableOf (tr : ParticipantTracks) : Bool :=
  match tr.audio with
  | some t => decide (t.state = "playable")
  | none => false

/-- The video attachment `updateReplicaVideo` performs for one
participant: a playable video track with a persistent track handle is
attached, independently of the audio track's state. -/
def videoAttachActions (tr : ParticipantTracks) : List MediaAction :=
  if videoPlayableOf tr then
    match tr.video with
    | some t =>
      match t.persistentTrack with
      | some track => [.attachVideo track]
      | none => []
    | none => []
  else []

/-- The audio attachment `updateReplicaVideo` performs for one
participant: a playable audio track with a persistent track handle is
attached whenever a video stream is already bound to the sink,
independently of this participant's video state. -/
def audioAttachActions (videoBound : Bool) (tr : ParticipantTracks) :
    List MediaAction :=
  if audioPlayableOf tr then
    match tr.audio with
    | some t =>
      match t.persistentTrack with
      | some track => if videoBound then [.attachAudio track] else []
      | none => []
    | none => []
  else []

/-- A participant whose video is playable but whose audio is still
loading. -/
def videoOnlyParticipant : ParticipantTracks :=
  ⟨some ⟨"playable", some "vtrack"⟩, some ⟨"loading", some "atrack"⟩⟩

/-- C8 counterexample: a remote participant with a playable video track
and a non-playable audio track gets its video track attached to the
local sink — partial binding occurs, contradicting the claim that
neither track is attached before both are playable.  (The
replica-connected signal itself is correctly withheld.) -/
theorem partial_binding_video_only :
    (updateReplicaVideo 10 { initialSessionState with callObject := true }
        [("replica1", videoOnlyParticipant)]).2 = [.attachVideo "vtrack"] ∧
    (updateReplicaVideo 10 { initialSessionState with callObject := true }
        [("replica1", videoOnlyParticipant)]).1.replicaConnected = false :=
  ⟨rfl, rfl⟩



set_option maxHeartbeats 4000000 in
theorem step_components (bc : Nat) (s : SessionSt) (acts : List MediaAction)
    (hw : Bool) (id : String) (tr : ParticipantTracks) (hid : id ≠ "local") :
    (updateReplicaStep bc (s, acts, hw) (id, tr)).2.2 =
      (hw || (videoPlayableOf tr && audioPlayableOf tr)) ∧
    (updateReplicaStep bc (s, acts, hw) (id, tr)).1.replicaConnected =
      (s.replicaConnected || (videoPlayableOf tr && audioPlayableOf tr)) ∧
    (updateReplicaStep bc (s, acts, hw) (id, tr)).2.1 =
      acts ++ videoAttachActions tr ++
        audioAttachActions (s.videoBound || !(videoAttachActions tr).isEmpty) tr := by
  obtain ⟨v, a⟩ := tr
  unfold updateReplicaStep videoPlayableOf audioPlayableOf videoAttachActions
    audioAttachActions
  dsimp only
  rw [if_neg hid]
  rcases v with _ | ⟨vs, vt⟩ <;> rcases a with _ | ⟨sa, ta⟩ <;>
    (try rcases vt with _ | trv) <;>
    (try rcases ta with _ | tra) <;>
    split_ifs <;>
    simp_all [videoPlayableOf, audioPlayableOf]

set_option maxHeartbeats 4000000 in
/-- C8 (amended): for a remote participant, the replica-connected
(AgentReady) signal is raised exactly when both of its tracks are
playable, but track attachment is per-track rather than all-or-nothing:
a playable video track (with a handle) is attached regardless of the
audio state, and a playable audio track (with a handle) is attached
regardless of the video state whenever a video stream is already bound
to the sink. -/
theorem media_binder_characterization (bookCount : Nat) (st : SessionSt)
    (id : String) (tr : ParticipantTracks)
    (hco : st.callObject = true) (hid : id ≠ "local") :
    (updateReplicaVideo bookCount st [(id, tr)]).1.replicaConnected =
      (videoPlayableOf tr && audioPlayableOf tr) ∧
    (updateReplicaVideo bookCount st [(id, tr)]).2 =
      videoAttachActions tr ++
        audioAttachActions (st.videoBound || !(videoAttachActions tr).isEmpty) tr := by
  obtain ⟨hhw, hrc, hacts⟩ := step_components bookCount st [] false id tr hid
  unfold updateReplicaVideo
  simp only [hco, Bool.not_true, if_false, Bool.false_eq_true, List.foldl_cons,
    List.foldl_nil, ite_false]
  rw [List.nil_append] at hacts
  cases hv : videoPlayableOf tr <;> cases ha : audioPlayableOf tr <;>
    simp_all

/-- Witness for `media_binder_characterization` (C8 amended) at a
concrete participant with both tracks playable. -/
theorem media_binder_characterization_witness :
    (updateReplicaVideo 7 { initialSessionState with callObject := true }
        [("p1", ⟨some ⟨"playable", some "v1"⟩,
                 some ⟨"playable", some "a1"⟩⟩)]).1.replicaConnected = true ∧
    (updateReplicaVideo 7 { initialSessionState with callObject := true }
        [("p1", ⟨some ⟨"playable", some "v1"⟩,
                 some ⟨"playable", some "a1"⟩⟩)]).2 =
      [.attachVideo "v1", .attachAudio "a1"] := by
  have h := media_binder_characterization 7
    { initialSessionState with callObject := true } "p1"
    ⟨some ⟨"playable", some "v1"⟩, some ⟨"playable", some "a1"⟩⟩ rfl (by decide)
  constructor
  · rw [h.1]
    rfl
  · rw [h.2]
    rfl
